import Mathlib

/-
Verification development for mirage/catalogs/create_catalog.py.

The Python module is glue over two remote astronomy services.  We embed it
shallowly: a masked table cell becomes a pair of a rational value and a
missing flag; the remote services become explicit function parameters (the
network response is an input); the numpy random stream becomes an explicit
function from a count to a list of rationals in the unit interval; vectorized
numpy arithmetic over aligned columns becomes a per-row map.  Magnitudes,
coordinates and areas are rationals (the Python floats only ever undergo
addition, subtraction, multiplication and division by constants here, and all
checked values are exactly representable).
-/

namespace Mirage

/-- One cell of an astropy masked column: the stored datum and the mask flag.
mask = true means the entry is flagged missing. -/
structure MaskedEntry where
  data : ℚ
  mask : Bool
deriving DecidableEq, Repr

/-- Substitute the fill value for a flagged entry: the per-cell meaning of the
astropy call column.filled().data used in get_2MASS_ptsrc_catalog. -/
def MaskedEntry.filled (e : MaskedEntry) (fill : ℚ) : ℚ :=
  if e.mask then fill else e.data

/-- One row of the 2MASS point-source query result table: masked ra, dec and
the three magnitude columns j_m, h_m, k_m read by the code. -/
structure TwoMassRow where
  ra : MaskedEntry
  dec : MaskedEntry
  j_m : MaskedEntry
  h_m : MaskedEntry
  k_m : MaskedEntry
deriving DecidableEq, Repr

/-- A named magnitude column of a catalog, keyed by instrument and filter. -/
structure MagnitudeColumn where
  instrument : String
  filter_name : String
  data : List ℚ
deriving DecidableEq, Repr

/-- Modelled from the spec: the catalog object built by
mirage.catalogs.catalog_generator.PointSourceCatalog, whose source is not in
this repository snapshot.  Per the spec data model it is an ordered collection
of sources with RA and Dec position arrays plus zero or more named magnitude
columns. -/
structure PointSourceCatalog where
  ra : List ℚ
  dec : List ℚ
  magnitudes : List MagnitudeColumn
deriving DecidableEq, Repr

/-- Modelled from the spec: add_magnitude_column of the catalog object (source
not in this snapshot) appends a named magnitude column to the catalog. -/
def PointSourceCatalog.add_magnitude_column (cat : PointSourceCatalog)
    (data : List ℚ) (instrument : String) (filter_name : String) :
    PointSourceCatalog :=
  { cat with magnitudes := cat.magnitudes ++ [⟨instrument, filter_name, data⟩] }

/-- filter_bad_ra_dec from create_catalog.py: per row, position_mask =
(not ra.mask) and (not dec.mask), i.e. true exactly when neither the RA nor
the Dec cell of the row is flagged missing. -/
def filter_bad_ra_dec (table_data : List TwoMassRow) : List Bool :=
  table_data.map fun row => (!row.ra.mask) && (!row.dec.mask)

/-- Numpy boolean-mask indexing data[mask]: keep the entries of data at the
positions where the mask holds true. -/
def applyMask (data : List ℚ) (mask : List Bool) : List ℚ :=
  (data.zip mask).filterMap fun p => if p.2 then some p.1 else none

/-- The value the code assigns to the shared client row cap:
Irsa.ROW_LIMIT = 1000000. -/
def Irsa_ROW_LIMIT_set : Nat := 1000000

/-- The astroquery Irsa.query_region call, with the network abstracted away:
the full list of catalog sources inside the requested box is an input, and the
client returns at most row_limit of them (the meaning of Irsa.ROW_LIMIT). -/
def Irsa_query_region (sources_in_box : List TwoMassRow) (row_limit : Nat) :
    List TwoMassRow :=
  sources_in_box.take row_limit

/-- The fill value of the 2MASS magnitude columns, 1e20, as stated by the
in-code comment next to the filled() calls. -/
def TWO_MASS_FILL : ℚ := 10 ^ 20

/-- get_2MASS_ptsrc_catalog from create_catalog.py.  It sets the client row
cap to 1000000, queries the box, builds the position arrays from the rows
whose RA and Dec are both unmasked, and appends the fill-substituted j_m, h_m
and k_m columns of the whole query table, without applying the position mask
to them. -/
def get_2MASS_ptsrc_catalog (sources_in_box : List TwoMassRow) :
    PointSourceCatalog :=
  let query_table := Irsa_query_region sources_in_box Irsa_ROW_LIMIT_set
  let radec_mask := filter_bad_ra_dec query_table
  let cat : PointSourceCatalog :=
    { ra := applyMask (query_table.map fun r => r.ra.data) radec_mask
      dec := applyMask (query_table.map fun r => r.dec.data) radec_mask
      magnitudes := [] }
  let cat := cat.add_magnitude_column
    (query_table.map fun r => r.j_m.filled TWO_MASS_FILL) "2MASS" "j_m"
  let cat := cat.add_magnitude_column
    (query_table.map fun r => r.h_m.filled TWO_MASS_FILL) "2MASS" "h_m"
  let cat := cat.add_magnitude_column
    (query_table.map fun r => r.k_m.filled TWO_MASS_FILL) "2MASS" "k_m"
  cat

/-- One row of the Besancon model response: the V magnitude and the four color
indices the code reads (V-K, J-K, J-H, J-L). -/
structure BesanconRow where
  V : ℚ
  V_K : ℚ
  J_K : ℚ
  J_H : ℚ
  J_L : ℚ
deriving DecidableEq, Repr

/-- Per-row meaning of k_mags = model[V] - model[V-K]. -/
def k_mag (r : BesanconRow) : ℚ := r.V - r.V_K

/-- Per-row meaning of j_mags = k_mags + model[J-K]. -/
def j_mag (r : BesanconRow) : ℚ := k_mag r + r.J_K

/-- Per-row meaning of h_mags = j_mags - model[J-H]. -/
def h_mag (r : BesanconRow) : ℚ := j_mag r - r.J_H

/-- Per-row meaning of l_mags = j_mags - model[J-L]. -/
def l_mag (r : BesanconRow) : ℚ := j_mag r - r.J_L

/-- How the besancon function of create_catalog.py ends when the coords
argument matches neither recognized literal: the if/elif chain has no else
branch, so coord1 is never assigned and Python raises UnboundLocalError when
coord1 is evaluated as an argument of the model query call.
invalidArgument stands for the ValueError-style diagnostic the spec asks an
implementer to raise there; the current code never produces it. -/
inductive BesanconError where
  | invalidArgument : BesanconError
  | unboundLocalError : BesanconError
deriving DecidableEq, Repr

/-- area = box_width * box_width converted from square arcseconds to square
degrees, as computed in besancon (one degree is 3600 arcseconds). -/
def besancon_area (box_width : ℚ) : ℚ :=
  box_width * box_width / (3600 * 3600)

/-- generate_ra_dec from create_catalog.py.  np.random.random is abstracted as
the explicit streams rand1 and rand2 (the two successive draws), each mapping
a requested count to the list of drawn values.  Each output value is
u * (max - min) + min for a drawn u. -/
def generate_ra_dec (rand1 rand2 : Nat → List ℚ) (number_of_stars : Nat)
    (ra_min ra_max dec_min dec_max : ℚ) : List ℚ × List ℚ :=
  let delta_ra := ra_max - ra_min
  let ra_list := (rand1 number_of_stars).map fun u => u * delta_ra + ra_min
  let delta_dec := dec_max - dec_min
  let dec_list := (rand2 number_of_stars).map fun u => u * delta_dec + dec_min
  (ra_list, dec_list)

/-- What np.random.random guarantees: a list of exactly the requested length
whose entries lie in the half-open unit interval. -/
def IsRandomStream (rand : Nat → List ℚ) : Prop :=
  ∀ n, (rand n).length = n ∧ ∀ u ∈ rand n, 0 ≤ u ∧ u < 1

/-- besancon from create_catalog.py.  External collaborators are parameters:
icrsToGalactic is the astropy ICRS-to-galactic frame transform, besanconQuery
the remote model service (galactic coord1, coord2 and an area in square
degrees to the response rows), rand1 and rand2 the two np.random.random
draws.  ra and dec are in degrees and box_width in arcseconds, as in the
code; the astropy unit algebra (degree minus arcsecond quantity) is embedded
as explicit division by 3600.  The magnitude-limit and color-limit arguments
of the query do not affect any dataflow modelled here and are omitted from
the query abstraction. -/
def besancon (icrsToGalactic : ℚ × ℚ → ℚ × ℚ)
    (besanconQuery : ℚ → ℚ → ℚ → List BesanconRow)
    (rand1 rand2 : Nat → List ℚ)
    (ra dec box_width : ℚ) (coords : String) :
    Except BesanconError PointSourceCatalog :=
  let coordPair : Option (ℚ × ℚ) :=
    if coords = "ra_dec" then some (icrsToGalactic (ra, dec))
    else if coords = "galactic" then some (ra, dec)
    else none
  match coordPair with
  | none => Except.error BesanconError.unboundLocalError
  | some (coord1, coord2) =>
    let area := besancon_area box_width
    let model := besanconQuery coord1 coord2 area
    let k_mags := model.map k_mag
    let j_mags := model.map j_mag
    let h_mags := model.map h_mag
    let l_mags := model.map l_mag
    let half_width := box_width * (1 / 2)
    let min_ra := ra - half_width / 3600
    let max_ra := ra + half_width / 3600
    let min_dec := dec - half_width / 3600
    let max_dec := dec + half_width / 3600
    let rd := generate_ra_dec rand1 rand2 k_mags.length
      min_ra max_ra min_dec max_dec
    let cat : PointSourceCatalog := { ra := rd.1, dec := rd.2, magnitudes := [] }
    let cat := cat.add_magnitude_column j_mags "Besancon" "j"
    let cat := cat.add_magnitude_column h_mags "Besancon" "h"
    let cat := cat.add_magnitude_column k_mags "Besancon" "k"
    let cat := cat.add_magnitude_column l_mags "Besancon" "l"
    Except.ok cat

/-- A 2MASS query row with nothing flagged missing. -/
def goodRow : TwoMassRow :=
  ⟨⟨10, false⟩, ⟨20, false⟩, ⟨5, false⟩, ⟨6, false⟩, ⟨7, false⟩⟩

/-- A 2MASS query row whose RA cell is flagged missing. -/
def badRaRow : TwoMassRow :=
  ⟨⟨11, true⟩, ⟨21, false⟩, ⟨5, false⟩, ⟨6, false⟩, ⟨7, false⟩⟩

/-- A 2MASS query row with valid positions whose j_m magnitude cell is flagged
missing. -/
def maskedJRow : TwoMassRow :=
  ⟨⟨12, false⟩, ⟨22, false⟩, ⟨5, true⟩, ⟨6, false⟩, ⟨7, false⟩⟩

/-- Identity stand-in for the coordinate-frame transform in concrete runs. -/
def f0 : ℚ × ℚ → ℚ × ℚ := fun p => p

/-- The model row of the spec worked example: V = 15, V-K = 2, J-K = 1,
J-H = 0.5, J-L = 1.5. -/
def specRow : BesanconRow := ⟨15, 2, 1, 1 / 2, 3 / 2⟩

/-- A concrete model service returning the one worked-example row. -/
def q0 : ℚ → ℚ → ℚ → List BesanconRow := fun _ _ _ => [specRow]

/-- A second concrete model service, returning nothing, used to exhibit that
the error path does not consult the service. -/
def q1 : ℚ → ℚ → ℚ → List BesanconRow := fun _ _ _ => []

/-- A concrete random stream: every draw is one half. -/
def s0 : Nat → List ℚ := fun n => List.replicate n (1 / 2)

/-- The catalog besancon builds from f0, q0, s0, s0 at ra = 0, dec = 0,
box_width = 3600, coords galactic: one star at the box center with the four
derived magnitudes of the worked example. -/
def catW : PointSourceCatalog :=
  ⟨[0], [0],
    [⟨"Besancon", "j", [14]⟩, ⟨"Besancon", "h", [27 / 2]⟩,
     ⟨"Besancon", "k", [13]⟩, ⟨"Besancon", "l", [25 / 2]⟩]⟩

/-- Projection of a besancon result onto its RA position array (empty on
error); used to state run equalities. -/
def exceptRA : Except BesanconError PointSourceCatalog → List ℚ
  | Except.ok c => c.ra
  | Except.error _ => []

/-- Projection of a besancon result onto its Dec position array (empty on
error); used to state run equalities. -/
def exceptDec : Except BesanconError PointSourceCatalog → List ℚ
  | Except.ok c => c.dec
  | Except.error _ => []

/-- Unfolding of boolean-mask indexing on a cons cell. -/
lemma applyMask_cons (x : ℚ) (xs : List ℚ) (b : Bool) (bs : List Bool) :
    applyMask (x :: xs) (b :: bs) =
      if b then x :: applyMask xs bs else applyMask xs bs := by
  cases b <;> simp [applyMask]

/-- Boolean-mask indexing with an all-true mask keeps every entry. -/
lemma applyMask_replicate_true (n : Nat) (x : ℚ) :
    applyMask (List.replicate n x) (List.replicate n true) = List.replicate n x := by
  induction n with
  | zero => simp [applyMask]
  | succ k ih => simp [List.replicate_succ, applyMask_cons, ih]

/-- The row-validity mask aligned with the table: pairing each row with its
mask entry is the same as mapping the per-row mask predicate. -/
lemma zip_filter_bad_ra_dec (table : List TwoMassRow) :
    table.zip (filter_bad_ra_dec table) =
      table.map fun r => (r, (!r.ra.mask) && (!r.dec.mask)) := by
  induction table with
  | nil => simp [filter_bad_ra_dec]
  | cons r rest ih => simp [filter_bad_ra_dec] at ih ⊢; exact ih

/-- C6: filter_bad_ra_dec returns one boolean per table row, true for a row
exactly when neither its RA nor its Dec cell is flagged missing; hence every
row retained by the mask has neither position flagged missing.  The embedding
is a pure function of the table, which is returned unmodified. -/
theorem filter_bad_ra_dec_spec (table : List TwoMassRow) :
    (filter_bad_ra_dec table).length = table.length ∧
    ∀ p ∈ table.zip (filter_bad_ra_dec table),
      p.2 = true ↔ (p.1.ra.mask = false ∧ p.1.dec.mask = false) := by
  constructor
  · simp [filter_bad_ra_dec]
  · intro p hp
    rw [zip_filter_bad_ra_dec] at hp
    simp only [List.mem_map] at hp
    obtain ⟨r, _, rfl⟩ := hp
    simp

/-- Witness for C6 at a concrete two-row table. -/
theorem filter_bad_ra_dec_spec_witness :
    (filter_bad_ra_dec [goodRow, badRaRow]).length = [goodRow, badRaRow].length ∧
    ∀ p ∈ [goodRow, badRaRow].zip (filter_bad_ra_dec [goodRow, badRaRow]),
      p.2 = true ↔ (p.1.ra.mask = false ∧ p.1.dec.mask = false) :=
  filter_bad_ra_dec_spec [goodRow, badRaRow]

/-- C8: besancon converts the box width to square degrees by squaring: the
area is the square of the width expressed in degrees, and a width of 3600
arcseconds gives exactly one square degree. -/
theorem besancon_area_spec :
    (∀ w : ℚ, besancon_area w = (w / 3600) * (w / 3600)) ∧
    besancon_area 3600 = 1 := by
  constructor
  · intro w; rw [besancon_area]; ring
  · rw [besancon_area]; norm_num

/-- C1 (failing evaluation): on a two-row query table whose second row has a
masked RA cell, get_2MASS_ptsrc_catalog builds position arrays of length one,
yet all three magnitude columns have length two.  The RA/Dec validity mask is
applied to the position arrays but not to the magnitude columns, so the
magnitude columns are longer than the position arrays, against the stated
catalog invariant. -/
theorem get_2MASS_magnitude_length_mismatch :
    (get_2MASS_ptsrc_catalog [goodRow, badRaRow]).ra.length = 1 ∧
    (get_2MASS_ptsrc_catalog [goodRow, badRaRow]).dec.length = 1 ∧
    ((get_2MASS_ptsrc_catalog [goodRow, badRaRow]).magnitudes.map
      fun c => c.data.length) = [2, 2, 2] := by decide

/-- On an all-valid query table of n copies of goodRow, the catalog position
array keeps min(ROW_LIMIT, n) entries: the take imposed by the client row cap
is the only thing that drops rows. -/
lemma get_2MASS_replicate_good_ra_length (n : Nat) :
    (get_2MASS_ptsrc_catalog (List.replicate n goodRow)).ra.length =
      min Irsa_ROW_LIMIT_set n := by
  simp [get_2MASS_ptsrc_catalog, Irsa_query_region, List.take_replicate,
    filter_bad_ra_dec, List.map_replicate, goodRow,
    applyMask_replicate_true, PointSourceCatalog.add_magnitude_column]

/-- C2 (failing evaluation): a box holding 1000001 valid sources yields a
catalog with only 1000000 positions, because the code sets the client row cap
to the finite value 1000000 rather than disabling it: the result count is
artificially capped. -/
theorem get_2MASS_row_cap_drops_sources :
    (List.replicate 1000001 goodRow).length = 1000001 ∧
    (get_2MASS_ptsrc_catalog (List.replicate 1000001 goodRow)).ra.length = 1000000 ∧
    (1000000 : Nat) ≠ 1000001 := by
  refine ⟨List.length_replicate 1000001 goodRow, ?_, by omega⟩
  rw [get_2MASS_replicate_good_ra_length, Irsa_ROW_LIMIT_set]
  omega

/-- The concrete galactic-mode run of besancon on the worked-example model
row: one star at the box center carrying the four derived magnitudes. -/
lemma besancon_run_catW :
    besancon f0 q0 s0 s0 0 0 3600 "galactic" = Except.ok catW := by
  simp [besancon, PointSourceCatalog.add_magnitude_column, generate_ra_dec,
    besancon_area, k_mag, j_mag, h_mag, l_mag, q0, s0, f0, specRow, catW]
  norm_num

/-- C3: every catalog besancon returns in galactic mode carries exactly the
four magnitude columns obtained by mapping the derivations K = V - (V-K),
J = K + (J-K), H = J - (J-H), L = J - (J-L) over the model response rows (in
the j, h, k, l column order of the code), and on the worked example
V = 15, V-K = 2, J-K = 1, J-H = 0.5, J-L = 1.5 they give K = 13, J = 14,
H = 13.5, L = 12.5. -/
theorem besancon_magnitude_derivation
    (itg : ℚ × ℚ → ℚ × ℚ) (q : ℚ → ℚ → ℚ → List BesanconRow)
    (r1 r2 : Nat → List ℚ) (ra dec bw : ℚ) (cat : PointSourceCatalog)
    (hok : besancon itg q r1 r2 ra dec bw "galactic" = Except.ok cat) :
    (cat.magnitudes.map MagnitudeColumn.data =
      [(q ra dec (besancon_area bw)).map j_mag,
       (q ra dec (besancon_area bw)).map h_mag,
       (q ra dec (besancon_area bw)).map k_mag,
       (q ra dec (besancon_area bw)).map l_mag]) ∧
    (∀ r : BesanconRow,
      k_mag r = r.V - r.V_K ∧ j_mag r = k_mag r + r.J_K ∧
      h_mag r = j_mag r - r.J_H ∧ l_mag r = j_mag r - r.J_L) ∧
    (k_mag specRow = 13 ∧ j_mag specRow = 14 ∧
     h_mag specRow = 27 / 2 ∧ l_mag specRow = 25 / 2) := by
  refine ⟨?_, ?_, ?_⟩
  · simp [besancon, PointSourceCatalog.add_magnitude_column] at hok
    rw [← hok]
    simp
  · intro r
    exact ⟨rfl, rfl, rfl, rfl⟩
  · refine ⟨?_, ?_, ?_, ?_⟩ <;>
      simp [k_mag, j_mag, h_mag, l_mag, specRow] <;> norm_num

/-- Witness for C3: the concrete galactic-mode run of besancon on the
worked-example model row produces the catalog catW. -/
theorem besancon_magnitude_derivation_witness :
    (catW.magnitudes.map MagnitudeColumn.data =
      [(q0 0 0 (besancon_area 3600)).map j_mag,
       (q0 0 0 (besancon_area 3600)).map h_mag,
       (q0 0 0 (besancon_area 3600)).map k_mag,
       (q0 0 0 (besancon_area 3600)).map l_mag]) ∧
    (∀ r : BesanconRow,
      k_mag r = r.V - r.V_K ∧ j_mag r = k_mag r + r.J_K ∧
      h_mag r = j_mag r - r.J_H ∧ l_mag r = j_mag r - r.J_L) ∧
    (k_mag specRow = 13 ∧ j_mag specRow = 14 ∧
     h_mag specRow = 27 / 2 ∧ l_mag specRow = 25 / 2) :=
  besancon_magnitude_derivation f0 q0 s0 s0 0 0 3600 catW besancon_run_catW

/-- A map by a nonnegative uniform draw below one stays inside the target
interval. -/
lemma uniform_bound (u lo hi : ℚ) (h0 : 0 ≤ u) (h1 : u < 1) (hlo : lo ≤ hi) :
    lo ≤ u * (hi - lo) + lo ∧ u * (hi - lo) + lo ≤ hi := by
  constructor <;> nlinarith

/-- Every position produced by generate_ra_dec from unit-interval draws lies
inside the requested bounds. -/
lemma generate_ra_dec_bounds
    (r1 r2 : Nat → List ℚ) (h1 : IsRandomStream r1) (h2 : IsRandomStream r2)
    (n : Nat) (ra_min ra_max dec_min dec_max : ℚ)
    (hra : ra_min ≤ ra_max) (hdec : dec_min ≤ dec_max) :
    (∀ x ∈ (generate_ra_dec r1 r2 n ra_min ra_max dec_min dec_max).1,
        ra_min ≤ x ∧ x ≤ ra_max) ∧
    (∀ y ∈ (generate_ra_dec r1 r2 n ra_min ra_max dec_min dec_max).2,
        dec_min ≤ y ∧ y ≤ dec_max) := by
  constructor
  · intro x hx
    simp only [generate_ra_dec, List.mem_map] at hx
    obtain ⟨u, hu, rfl⟩ := hx
    exact uniform_bound u ra_min ra_max ((h1 n).2 u hu).1 ((h1 n).2 u hu).2 hra
  · intro y hy
    simp only [generate_ra_dec, List.mem_map] at hy
    obtain ⟨u, hu, rfl⟩ := hy
    exact uniform_bound u dec_min dec_max ((h2 n).2 u hu).1 ((h2 n).2 u hu).2 hdec

/-- C4: whenever besancon returns a catalog, every assigned RA lies in
[center_RA - width/2, center_RA + width/2] and every assigned Dec in
[center_Dec - width/2, center_Dec + width/2], with the requested box width
expressed in degrees (bw / 3600), for unit-interval random streams and a
nonnegative box width. -/
theorem besancon_positions_in_box
    (itg : ℚ × ℚ → ℚ × ℚ) (q : ℚ → ℚ → ℚ → List BesanconRow)
    (r1 r2 : Nat → List ℚ) (ra dec bw : ℚ) (coords : String)
    (cat : PointSourceCatalog)
    (h1 : IsRandomStream r1) (h2 : IsRandomStream r2) (hbw : 0 ≤ bw)
    (hok : besancon itg q r1 r2 ra dec bw coords = Except.ok cat) :
    (∀ x ∈ cat.ra, ra - bw / 3600 / 2 ≤ x ∧ x ≤ ra + bw / 3600 / 2) ∧
    (∀ y ∈ cat.dec, dec - bw / 3600 / 2 ≤ y ∧ y ≤ dec + bw / 3600 / 2) := by
  have e1 : ra - bw / 3600 / 2 = ra - bw * (1 / 2) / 3600 := by ring
  have e2 : ra + bw / 3600 / 2 = ra + bw * (1 / 2) / 3600 := by ring
  have e3 : dec - bw / 3600 / 2 = dec - bw * (1 / 2) / 3600 := by ring
  have e4 : dec + bw / 3600 / 2 = dec + bw * (1 / 2) / 3600 := by ring
  have hmono : ∀ c : ℚ, c - bw * (1 / 2) / 3600 ≤ c + bw * (1 / 2) / 3600 := by
    intro c; nlinarith
  rw [e1, e2, e3, e4]
  by_cases hc1 : coords = "ra_dec"
  · subst hc1
    have hra' : cat.ra =
        (generate_ra_dec r1 r2
          ((q (itg (ra, dec)).1 (itg (ra, dec)).2 (besancon_area bw)).map k_mag).length
          (ra - bw * (1 / 2) / 3600) (ra + bw * (1 / 2) / 3600)
          (dec - bw * (1 / 2) / 3600) (dec + bw * (1 / 2) / 3600)).1 :=
      (congrArg exceptRA hok).symm
    have hdec' : cat.dec =
        (generate_ra_dec r1 r2
          ((q (itg (ra, dec)).1 (itg (ra, dec)).2 (besancon_area bw)).map k_mag).length
          (ra - bw * (1 / 2) / 3600) (ra + bw * (1 / 2) / 3600)
          (dec - bw * (1 / 2) / 3600) (dec + bw * (1 / 2) / 3600)).2 :=
      (congrArg exceptDec hok).symm
    rw [hra', hdec']
    exact generate_ra_dec_bounds r1 r2 h1 h2 _ _ _ _ _ (hmono ra) (hmono dec)
  · by_cases hc2 : coords = "galactic"
    · subst hc2
      have hra' : cat.ra =
          (generate_ra_dec r1 r2
            ((q ra dec (besancon_area bw)).map k_mag).length
            (ra - bw * (1 / 2) / 3600) (ra + bw * (1 / 2) / 3600)
            (dec - bw * (1 / 2) / 3600) (dec + bw * (1 / 2) / 3600)).1 :=
        (congrArg exceptRA hok).symm
      have hdec' : cat.dec =
          (generate_ra_dec r1 r2
            ((q ra dec (besancon_area bw)).map k_mag).length
            (ra - bw * (1 / 2) / 3600) (ra + bw * (1 / 2) / 3600)
            (dec - bw * (1 / 2) / 3600) (dec + bw * (1 / 2) / 3600)).2 :=
        (congrArg exceptDec hok).symm
      rw [hra', hdec']
      exact generate_ra_dec_bounds r1 r2 h1 h2 _ _ _ _ _ (hmono ra) (hmono dec)
    · simp [besancon, hc1, hc2] at hok

/-- The constant one-half stream satisfies the np.random.random contract. -/
lemma s0_isRandomStream : IsRandomStream s0 := by
  intro n
  refine ⟨by simp [s0], ?_⟩
  intro u hu
  simp [s0, List.mem_replicate] at hu
  rcases hu with ⟨-, rfl⟩
  norm_num

/-- Witness for C4 at the concrete galactic-mode run. -/
theorem besancon_positions_in_box_witness :
    (∀ x ∈ catW.ra, (0 : ℚ) - 3600 / 3600 / 2 ≤ x ∧ x ≤ 0 + 3600 / 3600 / 2) ∧
    (∀ y ∈ catW.dec, (0 : ℚ) - 3600 / 3600 / 2 ≤ y ∧ y ≤ 0 + 3600 / 3600 / 2) :=
  besancon_positions_in_box f0 q0 s0 s0 0 0 3600 "galactic" catW
    s0_isRandomStream s0_isRandomStream (by norm_num) besancon_run_catW

/-- C5 (counterexample): called with the unrecognized coords value
"equatorial", besancon fails with the unbound-variable error of the missing
else branch, which is not an invalid-argument error. -/
theorem besancon_unknown_coords_counterexample :
    besancon f0 q0 s0 s0 0 0 3600 "equatorial" =
      Except.error BesanconError.unboundLocalError ∧
    BesanconError.unboundLocalError ≠ BesanconError.invalidArgument := by
  constructor
  · simp [besancon]
  · decide

/-- C5 (amended): calling besancon with any coords string other than ra_dec
and galactic raises an error, namely the unbound-local-variable error from
the never-assigned coordinate variable, not a clear invalid-argument
error. -/
theorem besancon_unknown_coords_raises_unbound_local
    (itg : ℚ × ℚ → ℚ × ℚ) (q : ℚ → ℚ → ℚ → List BesanconRow)
    (r1 r2 : Nat → List ℚ) (ra dec bw : ℚ) (coords : String)
    (h1 : coords ≠ "ra_dec") (h2 : coords ≠ "galactic") :
    besancon itg q r1 r2 ra dec bw coords =
      Except.error BesanconError.unboundLocalError := by
  simp [besancon, h1, h2]

/-- Witness for the amended C5 at the concrete coords value icrs. -/
theorem besancon_unknown_coords_raises_unbound_local_witness :
    besancon f0 q0 s0 s0 0 0 3600 "icrs" =
      Except.error BesanconError.unboundLocalError :=
  besancon_unknown_coords_raises_unbound_local f0 q0 s0 s0 0 0 3600 "icrs"
    (by decide) (by decide)

/-- C10: with an unrecognized coords value, besancon fails with the
unbound-variable error and its result does not depend on the model service at
all: any two services give the identical outcome, so no query is issued
before the error. -/
theorem besancon_no_query_when_coords_unknown
    (itg : ℚ × ℚ → ℚ × ℚ) (qa qb : ℚ → ℚ → ℚ → List BesanconRow)
    (r1 r2 : Nat → List ℚ) (ra dec bw : ℚ) (coords : String)
    (h1 : coords ≠ "ra_dec") (h2 : coords ≠ "galactic") :
    besancon itg qa r1 r2 ra dec bw coords =
      Except.error BesanconError.unboundLocalError ∧
    besancon itg qa r1 r2 ra dec bw coords =
      besancon itg qb r1 r2 ra dec bw coords := by
  have h : ∀ qc : ℚ → ℚ → ℚ → List BesanconRow,
      besancon itg qc r1 r2 ra dec bw coords =
        Except.error BesanconError.unboundLocalError := by
    intro qc
    simp [besancon, h1, h2]
  exact ⟨h qa, (h qa).trans (h qb).symm⟩

/-- Witness for C10: at coords foo the outcome is the same error for the
one-row service q0 and the empty service q1. -/
theorem besancon_no_query_when_coords_unknown_witness :
    besancon f0 q0 s0 s0 0 0 3600 "foo" =
      Except.error BesanconError.unboundLocalError ∧
    besancon f0 q0 s0 s0 0 0 3600 "foo" =
      besancon f0 q1 s0 s0 0 0 3600 "foo" :=
  besancon_no_query_when_coords_unknown f0 q0 q1 s0 s0 0 0 3600 "foo"
    (by decide) (by decide)

/-- C9: from unit-interval random streams, generate_ra_dec returns two lists
of exactly the requested length (empty when the count is zero) whose entries
lie within the respective requested bounds. -/
theorem generate_ra_dec_spec
    (r1 r2 : Nat → List ℚ) (n : Nat) (ra_min ra_max dec_min dec_max : ℚ)
    (h1 : IsRandomStream r1) (h2 : IsRandomStream r2)
    (hra : ra_min ≤ ra_max) (hdec : dec_min ≤ dec_max) :
    (generate_ra_dec r1 r2 n ra_min ra_max dec_min dec_max).1.length = n ∧
    (generate_ra_dec r1 r2 n ra_min ra_max dec_min dec_max).2.length = n ∧
    (n = 0 → (generate_ra_dec r1 r2 n ra_min ra_max dec_min dec_max).1 = [] ∧
      (generate_ra_dec r1 r2 n ra_min ra_max dec_min dec_max).2 = []) ∧
    (∀ x ∈ (generate_ra_dec r1 r2 n ra_min ra_max dec_min dec_max).1,
        ra_min ≤ x ∧ x ≤ ra_max) ∧
    (∀ y ∈ (generate_ra_dec r1 r2 n ra_min ra_max dec_min dec_max).2,
        dec_min ≤ y ∧ y ≤ dec_max) := by
  have hb := generate_ra_dec_bounds r1 r2 h1 h2 n ra_min ra_max dec_min dec_max
    hra hdec
  have l1 : (generate_ra_dec r1 r2 n ra_min ra_max dec_min dec_max).1.length = n := by
    simp [generate_ra_dec, (h1 n).1]
  have l2 : (generate_ra_dec r1 r2 n ra_min ra_max dec_min dec_max).2.length = n := by
    simp [generate_ra_dec, (h2 n).1]
  refine ⟨l1, l2, ?_, hb.1, hb.2⟩
  intro h0
  subst h0
  exact ⟨List.length_eq_zero.mp l1, List.length_eq_zero.mp l2⟩

/-- Witness for C9 with count two and bounds zero to ten and five to six. -/
theorem generate_ra_dec_spec_witness :
    (generate_ra_dec s0 s0 2 0 10 5 6).1.length = 2 ∧
    (generate_ra_dec s0 s0 2 0 10 5 6).2.length = 2 ∧
    (2 = 0 → (generate_ra_dec s0 s0 2 0 10 5 6).1 = [] ∧
      (generate_ra_dec s0 s0 2 0 10 5 6).2 = []) ∧
    (∀ x ∈ (generate_ra_dec s0 s0 2 0 10 5 6).1, (0 : ℚ) ≤ x ∧ x ≤ 10) ∧
    (∀ y ∈ (generate_ra_dec s0 s0 2 0 10 5 6).2, (5 : ℚ) ≤ y ∧ y ≤ 6) :=
  generate_ra_dec_spec s0 s0 2 0 10 5 6 s0_isRandomStream s0_isRandomStream
    (by norm_num) (by norm_num)

/-- A row with unmasked RA and Dec contributes its image to the masked
selection of any per-row column. -/
lemma mem_applyMask (f : TwoMassRow → ℚ) (qt : List TwoMassRow)
    (row : TwoMassRow) (hmem : row ∈ qt)
    (hra : row.ra.mask = false) (hdec : row.dec.mask = false) :
    f row ∈ applyMask (qt.map f) (filter_bad_ra_dec qt) := by
  induction qt with
  | nil => simp at hmem
  | cons r rest ih =>
    have hstep : applyMask ((r :: rest).map f) (filter_bad_ra_dec (r :: rest)) =
        if (!r.ra.mask) && (!r.dec.mask) then
          f r :: applyMask (rest.map f) (filter_bad_ra_dec rest)
        else applyMask (rest.map f) (filter_bad_ra_dec rest) := by
      simp only [List.map_cons, filter_bad_ra_dec, applyMask_cons]
    rw [hstep]
    rcases List.mem_cons.mp hmem with h | h
    · subst h
      rw [if_pos]
      · exact List.mem_cons_self _ _
      · simp [hra, hdec]
    · by_cases hb : ((!r.ra.mask) && (!r.dec.mask)) = true
      · rw [if_pos hb]
        exact List.mem_cons_of_mem _ (ih h)
      · rw [if_neg hb]
        exact ih h

/-- C7: the three magnitude columns of the 2MASS catalog are the whole query
table with the 1e20 fill substituted cell-wise, with no per-row filtering of
the columns; a row with valid RA and Dec but a masked j_m magnitude is kept
in the catalog (its RA appears in the position array) and its magnitude entry
is the fill value 1e20. -/
theorem get_2MASS_fill_applied_whole_column
    (sources_in_box : List TwoMassRow) (row : TwoMassRow)
    (hmem : row ∈ Irsa_query_region sources_in_box Irsa_ROW_LIMIT_set)
    (hra : row.ra.mask = false) (hdec : row.dec.mask = false)
    (hj : row.j_m.mask = true) :
    ((get_2MASS_ptsrc_catalog sources_in_box).magnitudes.map
        MagnitudeColumn.data =
      [(Irsa_query_region sources_in_box Irsa_ROW_LIMIT_set).map
          fun r => r.j_m.filled TWO_MASS_FILL,
       (Irsa_query_region sources_in_box Irsa_ROW_LIMIT_set).map
          fun r => r.h_m.filled TWO_MASS_FILL,
       (Irsa_query_region sources_in_box Irsa_ROW_LIMIT_set).map
          fun r => r.k_m.filled TWO_MASS_FILL]) ∧
    row.ra.data ∈ (get_2MASS_ptsrc_catalog sources_in_box).ra ∧
    row.j_m.filled TWO_MASS_FILL = TWO_MASS_FILL := by
  refine ⟨?_, ?_, ?_⟩
  · simp [get_2MASS_ptsrc_catalog, PointSourceCatalog.add_magnitude_column]
  · have hfield : (get_2MASS_ptsrc_catalog sources_in_box).ra =
        applyMask
          ((Irsa_query_region sources_in_box Irsa_ROW_LIMIT_set).map
            fun r => r.ra.data)
          (filter_bad_ra_dec (Irsa_query_region sources_in_box Irsa_ROW_LIMIT_set)) :=
      rfl
    rw [hfield]
    exact mem_applyMask (fun r => r.ra.data) _ row hmem hra hdec
  · simp [MaskedEntry.filled, hj]

/-- Witness for C7 on a one-row table whose row has valid positions and a
masked j_m cell. -/
theorem get_2MASS_fill_applied_whole_column_witness :
    ((get_2MASS_ptsrc_catalog [maskedJRow]).magnitudes.map
        MagnitudeColumn.data =
      [(Irsa_query_region [maskedJRow] Irsa_ROW_LIMIT_set).map
          fun r => r.j_m.filled TWO_MASS_FILL,
       (Irsa_query_region [maskedJRow] Irsa_ROW_LIMIT_set).map
          fun r => r.h_m.filled TWO_MASS_FILL,
       (Irsa_query_region [maskedJRow] Irsa_ROW_LIMIT_set).map
          fun r => r.k_m.filled TWO_MASS_FILL]) ∧
    maskedJRow.ra.data ∈ (get_2MASS_ptsrc_catalog [maskedJRow]).ra ∧
    maskedJRow.j_m.filled TWO_MASS_FILL = TWO_MASS_FILL :=
  get_2MASS_fill_applied_whole_column [maskedJRow] maskedJRow
    (by decide) (by decide) (by decide) (by decide)

end Mirage
